import Mathlib

/-!
Shallow embedding of `src/timelapse-recorder.py` (a tkinter screen timelapse
recorder) and verification of the frozen claims about it.

Modelling conventions:
* Python floats (`fps`, `interval`) are modelled as `ℚ`; the code only
  compares them to 0 and passes them around, so no floating-point rounding
  is relevant to any claim.
* OS collaborators (`win32gui.GetWindowRect`, `mss` monitors and grabs,
  `cv2.VideoWriter` open success, `float()` parsing of entry text) are
  oracles packaged in `Env`; the code under verification is everything the
  script itself does with their answers.
* The background thread `record` and the capture `while` loop are modelled
  as functions producing a linear trace of `Event`s (a faithful
  linearization: every event of the thread happens after the spawn).  The
  shared global `recording` flag, which the loop reads once at the top of
  each iteration, is modelled as the schedule `flag : Nat → Bool` of the
  values those successive reads observe.  The unbounded `while` loop is
  given fuel; a fuel-exhausted run is a partial trace of a still-running
  loop, and termination statements quantify over sufficient fuel.
-/

namespace Timelapse

/-- Python `str.strip()` on the character list of a string: drop whitespace
from both ends. -/
def pyStrip (l : List Char) : List Char :=
  ((l.dropWhile Char.isWhitespace).reverse.dropWhile Char.isWhitespace).reverse

/-- ASCII case folding of one character, the part of Python `str.lower()`
relevant to the `.mp4` extension check. -/
def asciiLower (c : Char) : Char :=
  if 'A' ≤ c ∧ c ≤ 'Z' then Char.ofNat (c.toNat + 32) else c

/-- Python `str.endswith(suffix)` on character lists. -/
def pyEndsWith (l suffix : List Char) : Bool :=
  List.take suffix.length l.reverse == suffix.reverse

/-- The `sys.platform` values the script branches on. -/
inductive Platform where
  | win32
  | darwin
  | linuxOS
deriving DecidableEq, Repr

/-- Pixel rectangle, as built by `get_window_rect` and as `mss` monitor dicts
`{left, top, width, height}`. -/
structure Rect where
  left : Int
  top : Int
  width : Int
  height : Int
deriving DecidableEq, Repr

/-- A raster image; only its shape matters to the script
(`frame.shape = (height, width, channels)`). -/
structure Image where
  width : Nat
  height : Nat
  channels : Nat
deriving DecidableEq, Repr

/-- Model of `np.array(sct.grab(monitor))`: a BGRA raster whose shape is the
monitor rectangle's. -/
def grab (monitor : Rect) : Image :=
  { width := monitor.width.toNat, height := monitor.height.toNat, channels := 4 }

/-- Model of `cv2.cvtColor(img, cv2.COLOR_BGRA2BGR)`: drops alpha, keeps shape. -/
def cvtColor_BGRA2BGR (img : Image) : Image :=
  { img with channels := 3 }

/-- Model of `cv2.resize(img, (width, height))`: forces the given shape. -/
def cv2_resize (img : Image) (width height : Nat) : Image :=
  { img with width := width, height := height }

/-- Model of `cv2.VideoWriter(path, fourcc, fps, (width, height))`; whether the
sink opens is the codec-availability oracle's answer for the fourcc. -/
structure VideoWriter where
  path : String
  fourcc : String
  fps : ℚ
  width : Nat
  height : Nat
  opened : Bool
deriving DecidableEq, Repr

def mkVideoWriter (opens : String → Bool) (path fourcc : String) (fps : ℚ)
    (width height : Nat) : VideoWriter :=
  { path := path, fourcc := fourcc, fps := fps, width := width, height := height,
    opened := opens fourcc }

/-- Model of `get_window_rect(hwnd)` (source lines 103-113): on win32 it builds
the `{left, top, width, height}` dict from the `GetWindowRect` 4-tuple
`(l, t, r, b)`; on any other platform it returns `None`.  `osRect` is the OS
answer (`none` models the call yielding no rectangle). -/
def get_window_rect (platform : Platform)
    (osRect : Nat → Option (Int × Int × Int × Int)) (hwnd : Nat) : Option Rect :=
  if platform = Platform.win32 then
    match osRect hwnd with
    | some (l, t, r, b) =>
      some { left := l, top := t, width := r - l, height := b - t }
    | none => none
  else
    none

/-- Observable actions of the script, in program order.  `widgetConfig w st`
is `w.config(state=st)`; `setRecording b` is an assignment to the global
`recording`; `sleepSec` is `time.sleep(interval)`. -/
inductive Event where
  | showError (msg : String)
  | showInfo (msg : String)
  | configSaved (path : String) (fps interval : ℚ) (window : String)
  | setRecording (b : Bool)
  | widgetConfig (widget state : String)
  | spawnThread
  | openWriterAttempt (path fourcc : String) (fps : ℚ) (width height : Nat)
  | writeFrame (img : Image)
  | sleepSec (seconds : ℚ)
  | releaseWriter
deriving DecidableEq, Repr

/-- The environment: platform, OS oracles, codec availability, the schedule of
values the loop's reads of the shared `recording` flag observe, loop fuel, and
UI-side oracles (`float()` parsing, `Path(...).resolve()`, the timestamped
default filename). -/
structure Env where
  platform : Platform
  fullMonitor : Rect
  osRect : Nat → Option (Int × Int × Int × Int)
  tickRect : Nat → Nat → Option (Int × Int × Int × Int)
  opens : String → Bool
  flag : Nat → Bool
  fuel : Nat
  osWindows : List (String × Nat)
  parseFloat : String → Option ℚ
  resolvePath : String → String
  defaultFilename : String

/-- One normalized frame (source lines 220-225): grab the monitor, drop alpha,
and resample to the session's initial `(width, height)` if the shape drifted. -/
def normalizeFrame (monitor : Rect) (width height : Nat) : Image :=
  let img0 := cvtColor_BGRA2BGR (grab monitor)
  if img0.width ≠ width ∨ img0.height ≠ height then cv2_resize img0 width height
  else img0

/-- The per-tick monitor update at the top of the loop body (source lines
214-218): for a selected window on win32, re-query the rectangle and keep the
last-known-good `monitor` when the query yields nothing (`if rect:` is false
exactly when `get_window_rect` returned `None`); otherwise the monitor is
untouched. -/
def tickMonitor (env : Env) (selected : Option Nat) (i : Nat) (monitor : Rect) :
    Rect :=
  match selected, env.platform with
  | some hwnd, Platform.win32 =>
    match get_window_rect env.platform (env.tickRect i) hwnd with
    | some r => r
    | none => monitor
  | _, _ => monitor

/-- The `while recording:` capture loop (source lines 213-236).  At iteration
`i` it reads the shared flag (`env.flag i`); while true it re-queries the
window rectangle (keeping the last-known-good `monitor` when the query yields
nothing), grabs, normalizes, writes one frame and sleeps; when the flag reads
false it releases the writer, announces the finished file and re-enables the
widgets (lines 230-236). -/
def record_loop (env : Env) (selected : Option Nat) (interval : ℚ)
    (width height : Nat) : Nat → Nat → Rect → List Event
  | 0, _, _ => []
  | fuel + 1, i, monitor =>
    if env.flag i then
      Event.writeFrame (normalizeFrame (tickMonitor env selected i monitor) width height) ::
        Event.sleepSec interval ::
        record_loop env selected interval width height fuel (i + 1)
          (tickMonitor env selected i monitor)
    else
      [Event.releaseWriter,
       Event.showInfo "Recording Finished",
       Event.widgetConfig "start_button" "normal",
       Event.widgetConfig "stop_button" "disabled",
       Event.widgetConfig "window_combo" "normal",
       Event.widgetConfig "refresh_button" "normal"]

/-- Region determination at the top of `record` (source lines 177-195):
entire screen for no selection; on win32 the window's rectangle (failing when
the OS query yields none); on any other platform, the full display. -/
def resolveStartMonitor (env : Env) (selected : Option Nat) : Option Rect :=
  match selected with
  | none => some env.fullMonitor
  | some hwnd =>
    if env.platform = Platform.win32 then
      get_window_rect env.platform env.osRect hwnd
    else
      some env.fullMonitor

/-- The background thread body `record` (source lines 174-236): determine the
region (error path: lines 185-192), grab a first frame for the dimensions,
open the avc1 writer and fall back to mp4v if it did not open (lines 201-208,
with no opened-check after the fallback), announce the start and run the loop. -/
def record (env : Env) (selected : Option Nat) (fps interval : ℚ)
    (save_file window_name : String) : List Event :=
  match resolveStartMonitor env selected with
  | none =>
    [Event.showError "Could not get window dimensions",
     Event.setRecording false,
     Event.widgetConfig "start_button" "normal",
     Event.widgetConfig "stop_button" "disabled",
     Event.widgetConfig "window_combo" "normal",
     Event.widgetConfig "refresh_button" "normal"]
  | some monitor0 =>
    let frame := grab monitor0
    let width := frame.width
    let height := frame.height
    let out1 := mkVideoWriter env.opens save_file "avc1" fps width height
    let attempts :=
      if out1.opened then
        [Event.openWriterAttempt save_file "avc1" fps width height]
      else
        [Event.openWriterAttempt save_file "avc1" fps width height,
         Event.openWriterAttempt save_file "mp4v" fps width height]
    attempts ++
      Event.showInfo ("Recording Started " ++ window_name) ::
      record_loop env selected interval width height env.fuel 0 monitor0

/-- The global UI-visible state mutated by `start_recording` /
`stop_recording`: the `recording` flag, `output_folder`, `selected_window`,
the last config written to `config.txt`, and the four widget states. -/
structure GState where
  recording : Bool
  output_folder : String
  selected_window : Option Nat
  savedConfig : Option (String × ℚ × ℚ × String)
  startState : String
  stopState : String
  comboState : String
  refreshState : String
deriving DecidableEq, Repr

/-- The entry-widget texts read by `start_recording`. -/
structure UIInputs where
  fps_entry : String
  interval_entry : String
  filename_entry : String
  path_entry : String
  window_combo : String
deriving DecidableEq, Repr

/-- Model of `get_window_list()` (source lines 75-88): always offers
`("Entire Screen", None)`; only on win32 does it append the OS's visible,
titled windows. -/
def get_window_list (platform : Platform) (osWindows : List (String × Nat)) :
    List (String × Option Nat) :=
  ("Entire Screen", none) ::
    (if platform = Platform.win32 then osWindows.map (fun p => (p.1, some p.2))
     else [])

/-- The window-name lookup of source lines 155-159: first list entry whose name
matches, else `None` (note `("Entire Screen", None)` also yields `None`). -/
def lookupWindow (windows : List (String × Option Nat)) (name : String) :
    Option Nat :=
  match windows.find? (fun p => p.1 == name) with
  | some p => p.2
  | none => none

/-- Model of `start_recording()` (source lines 131-238) returning the new
global state and the trace of events.  The spawned thread's own events follow
`Event.spawnThread` in the trace (its state mutations happen asynchronously
and are represented only there). -/
def start_recording (env : Env) (s : GState) (ins : UIInputs) :
    GState × List Event :=
  if s.recording then (s, [])
  else
    match env.parseFloat ins.fps_entry, env.parseFloat ins.interval_entry with
    | some fps, some interval =>
      let filename0 :=
        if pyStrip ins.filename_entry.toList = [] then env.defaultFilename.toList
        else pyStrip ins.filename_entry.toList
      if fps ≤ 0 ∨ interval ≤ 0 then
        (s, [Event.showError "FPS and Interval must be > 0"])
      else
        let filename :=
          if pyEndsWith (filename0.map asciiLower) ".mp4".toList then filename0
          else filename0 ++ ".mp4".toList
        let window_name := ins.window_combo
        let selected :=
          lookupWindow (get_window_list env.platform env.osWindows) window_name
        let chosen_path := env.resolvePath ins.path_entry
        let save_file := chosen_path ++ "/" ++ String.mk filename
        ({ recording := true,
           output_folder := chosen_path,
           selected_window := selected,
           savedConfig := some (chosen_path, fps, interval, window_name),
           startState := "disabled", stopState := "normal",
           comboState := "disabled", refreshState := "disabled" },
         Event.configSaved chosen_path fps interval window_name ::
           Event.setRecording true ::
           Event.widgetConfig "start_button" "disabled" ::
           Event.widgetConfig "stop_button" "normal" ::
           Event.widgetConfig "window_combo" "disabled" ::
           Event.widgetConfig "refresh_button" "disabled" ::
           Event.spawnThread ::
           record env selected fps interval save_file window_name)
    | _, _ => (s, [Event.showError "Invalid numeric input"])

/-- Model of `stop_recording()` (source lines 240-242): clears the shared flag. -/
def stop_recording (s : GState) : GState :=
  { s with recording := false }

/-- The writer-open attempts `(path, fourcc, fps, width, height)` occurring in
a trace. -/
def openAttempts (tr : List Event) : List (String × String × ℚ × Nat × Nat) :=
  tr.filterMap fun e =>
    match e with
    | Event.openWriterAttempt p f fps w h => some (p, f, fps, w, h)
    | _ => none

/-- The frames written to the encoder in a trace, in order. -/
def writtenFrames (tr : List Event) : List Image :=
  tr.filterMap fun e =>
    match e with
    | Event.writeFrame img => some img
    | _ => none

/-- Playable duration of an n-frame video in a container whose header carries
frame rate `writerFps`. -/
def playbackDuration (frameCount : Nat) (writerFps : ℚ) : ℚ :=
  (frameCount : ℚ) / writerFps

/-- Python `text.split(sep)` (all occurrences) on character lists; like Python,
the empty text yields one empty field. -/
def pySplit (sep : Char) : List Char → List (List Char)
  | [] => [[]]
  | c :: cs =>
    if c = sep then [] :: pySplit sep cs
    else
      match pySplit sep cs with
      | [] => [[c]]
      | g :: gs => (c :: g) :: gs

/-- Python `line.split(sep, 1)`: the part before the first `sep` and everything
after it (the whole line and an empty remainder when `sep` is absent). -/
def pySplitOnce (sep : Char) : List Char → List Char × List Char
  | [] => ([], [])
  | c :: cs =>
    if c = sep then ([], cs)
    else
      let p := pySplitOnce sep cs
      (c :: p.1, p.2)

/-- Lookup in the dict built by successive `config[key] = value` assignments
(later assignments to the same key win): fold the assignments in order. -/
def pyDictGet (pairs : List (List Char × List Char)) (key : List Char) :
    Option (List Char) :=
  pairs.foldl (fun acc kv => if kv.1 == key then some kv.2 else acc) none

/-- A parsed configuration, the result type of `load_config` (source lines
37-64).  `path` is the text of the `Path` (Python `Path(str(p))` equals `p`,
so the identity on that text models the `Path` round trip), `fps` and
`interval` are the parsed floats. -/
structure Config where
  path : List Char
  fps : ℚ
  interval : ℚ
  window : List Char
deriving DecidableEq, Repr

/-- Model of `save_config(path, fps, interval, window)` (source lines 66-69):
the flat text `f"path={path}\nfps={fps}\ninterval={interval}\nwindow={window}"`
written to the config file.  `printFloat` is Python `str` on floats, applied
to the two numeric fields. -/
def save_config (printFloat : ℚ → List Char) (c : Config) : List Char :=
  "path=".toList ++ c.path ++ '\n' ::
    ("fps=".toList ++ printFloat c.fps ++ '\n' ::
      ("interval=".toList ++ printFloat c.interval ++ '\n' ::
        ("window=".toList ++ c.window)))

/-- Model of `load_config()` (source lines 37-64) on a present config file
whose text is `text`: strip the text, split into lines, keep the `key=value`
lines (splitting at the first `=`, stripping key and value), then read the
four fields with their defaults; a `float()` failure (`parseFloat` returning
`none`) triggers the bare `except` and yields the defaults.  `scriptDir` is
the text of `SCRIPT_DIR`. -/
def load_config (existsFile : Bool) (text : List Char)
    (parseFloat : List Char → Option ℚ) (scriptDir : List Char) : Config :=
  let defaults : Config :=
    { path := scriptDir, fps := 30, interval := 1,
      window := "Entire Screen".toList }
  if existsFile then
    let lines := pySplit '\n' (pyStrip text)
    let pairs := lines.filterMap fun line =>
      if '=' ∈ line then
        let kv := pySplitOnce '=' line
        some (pyStrip kv.1, pyStrip kv.2)
      else none
    let pathV := (pyDictGet pairs "path".toList).getD scriptDir
    let fpsV : Option ℚ :=
      match pyDictGet pairs "fps".toList with
      | some v => parseFloat v
      | none => some 30
    let intervalV : Option ℚ :=
      match pyDictGet pairs "interval".toList with
      | some v => parseFloat v
      | none => some 1
    let windowV := (pyDictGet pairs "window".toList).getD "Entire Screen".toList
    match fpsV, intervalV with
    | some f, some i =>
      { path := pathV, fps := f, interval := i, window := windowV }
    | _, _ => defaults
  else defaults

/-! ### General lemmas about the loop and trace projections -/

theorem openAttempts_append (a b : List Event) :
    openAttempts (a ++ b) = openAttempts a ++ openAttempts b :=
  List.filterMap_append a b _

theorem writtenFrames_append (a b : List Event) :
    writtenFrames (a ++ b) = writtenFrames a ++ writtenFrames b :=
  List.filterMap_append a b _

theorem openAttempts_record_loop (env : Env) (selected : Option Nat)
    (interval : ℚ) (width height : Nat) :
    ∀ fuel i monitor,
      openAttempts (record_loop env selected interval width height fuel i monitor)
        = [] := by
  intro fuel
  induction fuel with
  | zero => intro i m; simp [record_loop, openAttempts]
  | succ n ih =>
    intro i m
    by_cases hf : env.flag i = true
    · simp only [record_loop, hf, if_true, openAttempts, List.filterMap_cons]
      exact ih (i + 1) _
    · simp [record_loop, hf, openAttempts]

theorem showError_not_mem_record_loop (env : Env) (selected : Option Nat)
    (interval : ℚ) (width height : Nat) :
    ∀ fuel i monitor msg,
      Event.showError msg ∉ record_loop env selected interval width height fuel i monitor := by
  intro fuel
  induction fuel with
  | zero => intro i m msg; simp [record_loop]
  | succ n ih =>
    intro i m msg
    by_cases hf : env.flag i = true
    · simp only [record_loop, hf, if_true, List.mem_cons]
      rintro (h | h | h)
      · exact Event.noConfusion h
      · exact Event.noConfusion h
      · exact ih (i + 1) _ msg h
    · simp [record_loop, hf]

theorem normalizeFrame_width (monitor : Rect) (width height : Nat) :
    (normalizeFrame monitor width height).width = width := by
  unfold normalizeFrame
  by_cases h : (cvtColor_BGRA2BGR (grab monitor)).width ≠ width
      ∨ (cvtColor_BGRA2BGR (grab monitor)).height ≠ height
  · simp [h, cv2_resize]
  · push_neg at h
    simp [h.1, h.2, cv2_resize]

theorem normalizeFrame_height (monitor : Rect) (width height : Nat) :
    (normalizeFrame monitor width height).height = height := by
  unfold normalizeFrame
  by_cases h : (cvtColor_BGRA2BGR (grab monitor)).width ≠ width
      ∨ (cvtColor_BGRA2BGR (grab monitor)).height ≠ height
  · simp [h, cv2_resize]
  · push_neg at h
    simp [h.1, h.2, cv2_resize]

theorem record_loop_frame_dims (env : Env) (selected : Option Nat)
    (interval : ℚ) (width height : Nat) :
    ∀ fuel i monitor,
      ∀ img ∈ writtenFrames (record_loop env selected interval width height fuel i monitor),
        img.width = width ∧ img.height = height := by
  intro fuel
  induction fuel with
  | zero => intro i m img h; simp [record_loop, writtenFrames] at h
  | succ n ih =>
    intro i m img h
    by_cases hf : env.flag i = true
    · simp only [record_loop, hf, if_true, writtenFrames, List.filterMap_cons] at h
      rcases List.mem_cons.mp h with h1 | h2
      · subst h1
        exact ⟨normalizeFrame_width _ _ _, normalizeFrame_height _ _ _⟩
      · exact ih (i + 1) _ img h2
    · simp [record_loop, hf, writtenFrames] at h

theorem writtenFrames_record_loop_bound (env : Env) (selected : Option Nat)
    (interval : ℚ) (width height j : Nat)
    (hstop : ∀ k, j < k → env.flag k = false) :
    ∀ fuel i monitor,
      (writtenFrames (record_loop env selected interval width height fuel i monitor)).length
        ≤ j + 1 - i := by
  intro fuel
  induction fuel with
  | zero => intro i m; simp [record_loop, writtenFrames]
  | succ n ih =>
    intro i m
    by_cases hf : env.flag i = true
    · have hij : i ≤ j := by
        by_contra hgt
        push_neg at hgt
        rw [hstop i hgt] at hf
        exact Bool.noConfusion hf
      simp only [record_loop, hf, if_true, writtenFrames, List.filterMap_cons]
      have := ih (i + 1) (tickMonitor env selected i m)
      simp only [writtenFrames] at this
      simp only [List.length_cons]
      omega
    · simp [record_loop, hf, writtenFrames]

theorem record_loop_fuel_congr (env : Env) (selected : Option Nat)
    (interval : ℚ) (width height j : Nat)
    (hstop : ∀ k, j < k → env.flag k = false) :
    ∀ fuel fuel' i monitor, i ≤ j + 1 → j + 2 ≤ i + fuel → j + 2 ≤ i + fuel' →
      record_loop env selected interval width height fuel i monitor
        = record_loop env selected interval width height fuel' i monitor := by
  intro fuel
  induction fuel with
  | zero => intro fuel' i m h1 h2 h3; omega
  | succ n ih =>
    intro fuel' i m h1 h2 h3
    match fuel' with
    | 0 => omega
    | n' + 1 =>
      by_cases hf : env.flag i = true
      · have hij : i ≤ j := by
          by_contra hgt
          push_neg at hgt
          rw [hstop i hgt] at hf
          exact Bool.noConfusion hf
        simp only [record_loop, hf, if_true]
        congr 1
        congr 1
        exact ih n' (i + 1) _ (by omega) (by omega) (by omega)
      · simp only [record_loop, hf]
        simp

theorem record_loop_release_mem (env : Env) (selected : Option Nat)
    (interval : ℚ) (width height j : Nat)
    (hstop : ∀ k, j < k → env.flag k = false) :
    ∀ fuel i monitor, i ≤ j + 1 → j + 2 ≤ i + fuel →
      Event.releaseWriter ∈ record_loop env selected interval width height fuel i monitor := by
  intro fuel
  induction fuel with
  | zero => intro i m h1 h2; omega
  | succ n ih =>
    intro i m h1 h2
    by_cases hf : env.flag i = true
    · have hij : i ≤ j := by
        by_contra hgt
        push_neg at hgt
        rw [hstop i hgt] at hf
        exact Bool.noConfusion hf
      simp only [record_loop, hf, if_true, List.mem_cons]
      right; right
      exact ih (i + 1) _ (by omega) (by omega)
    · simp [record_loop, hf]

/-! ### Lemmas about the Python string helpers used by the config store -/

theorem dropWhile_of_length_eq {α : Type} {p : α → Bool} {l : List α}
    (h : (l.dropWhile p).length = l.length) : l.dropWhile p = l := by
  have hsplit : l.takeWhile p ++ l.dropWhile p = l := List.takeWhile_append_dropWhile p l
  have hlen : (l.takeWhile p).length + (l.dropWhile p).length = l.length := by
    rw [← List.length_append, hsplit]
  have htake : l.takeWhile p = [] := by
    have h0 : (l.takeWhile p).length = 0 := by omega
    exact List.length_eq_zero.mp h0
  rw [htake, List.nil_append] at hsplit
  exact hsplit

theorem pyStrip_eq_self_parts {l : List Char} (h : pyStrip l = l) :
    l.dropWhile Char.isWhitespace = l
      ∧ l.reverse.dropWhile Char.isWhitespace = l.reverse := by
  unfold pyStrip at h
  have hlen1 :
      (((l.dropWhile Char.isWhitespace).reverse.dropWhile Char.isWhitespace).reverse).length
        = l.length := by rw [h]
  have hle1 :
      ((l.dropWhile Char.isWhitespace).reverse.dropWhile Char.isWhitespace).length
        ≤ (l.dropWhile Char.isWhitespace).reverse.length :=
    (List.dropWhile_suffix _).length_le
  have hle2 : (l.dropWhile Char.isWhitespace).length ≤ l.length :=
    (List.dropWhile_suffix _).length_le
  simp only [List.length_reverse] at hlen1 hle1
  have hdlen : (l.dropWhile Char.isWhitespace).length = l.length := by omega
  have hd : l.dropWhile Char.isWhitespace = l := dropWhile_of_length_eq hdlen
  rw [hd] at h
  refine ⟨hd, ?_⟩
  have := congrArg List.reverse h
  rw [List.reverse_reverse] at this
  exact this

theorem pyStrip_eq_self_of {l : List Char}
    (h1 : l.dropWhile Char.isWhitespace = l)
    (h2 : l.reverse.dropWhile Char.isWhitespace = l.reverse) : pyStrip l = l := by
  unfold pyStrip
  rw [h1, h2, List.reverse_reverse]

theorem head_false_of_dropWhile_self {α : Type} {p : α → Bool} {a : α} {t : List α}
    (h : (a :: t).dropWhile p = a :: t) : p a = false := by
  by_cases hpa : p a = true
  · rw [List.dropWhile_cons, if_pos hpa] at h
    have := (List.dropWhile_suffix (l := t) p).length_le
    have := congrArg List.length h
    simp at this
    omega
  · exact Bool.eq_false_iff.mpr hpa

theorem dropWhile_append_of_ne {α : Type} {p : α → Bool} {l m : List α}
    (h : l.dropWhile p = l) (hne : l ≠ []) : (l ++ m).dropWhile p = l ++ m := by
  match l, hne with
  | a :: t, _ =>
    have hpa : p a = false := head_false_of_dropWhile_self h
    rw [List.cons_append, List.dropWhile_cons, if_neg (by simp [hpa])]

theorem pySplit_no_sep {sep : Char} {l : List Char} (h : sep ∉ l) :
    pySplit sep l = [l] := by
  induction l with
  | nil => rfl
  | cons c cs ih =>
    have hc : ¬ (c = sep) := by
      rintro rfl
      exact h (List.mem_cons_self _ _)
    have hrest : sep ∉ cs := fun hm => h (List.mem_cons_of_mem _ hm)
    simp only [pySplit, if_neg hc, ih hrest]

theorem pySplit_append {sep : Char} {a b : List Char} (h : sep ∉ a) :
    pySplit sep (a ++ sep :: b) = a :: pySplit sep b := by
  induction a with
  | nil => simp [pySplit]
  | cons c cs ih =>
    have hc : ¬ (c = sep) := by
      rintro rfl
      exact h (List.mem_cons_self _ _)
    have hrest : sep ∉ cs := fun hm => h (List.mem_cons_of_mem _ hm)
    rw [List.cons_append]
    simp only [pySplit, if_neg hc, ih hrest]

theorem pySplitOnce_of_key {sep : Char} {k v : List Char} (h : sep ∉ k) :
    pySplitOnce sep (k ++ sep :: v) = (k, v) := by
  induction k with
  | nil => simp [pySplitOnce]
  | cons c cs ih =>
    have hc : ¬ (c = sep) := by
      rintro rfl
      exact h (List.mem_cons_self _ _)
    have hrest : sep ∉ cs := fun hm => h (List.mem_cons_of_mem _ hm)
    rw [List.cons_append]
    simp only [pySplitOnce, if_neg hc, ih hrest]

theorem lastNonWs_append {x y : List Char}
    (hy : y.reverse.dropWhile Char.isWhitespace = y.reverse) (hne : y ≠ []) :
    (x ++ y).reverse.dropWhile Char.isWhitespace = (x ++ y).reverse := by
  rw [List.reverse_append]
  exact dropWhile_append_of_ne hy (by simpa using hne)

/-! ### Record-level trace projections -/

theorem openAttempts_record (env : Env) (selected : Option Nat)
    (fps interval : ℚ) (save_file window_name : String) :
    openAttempts (record env selected fps interval save_file window_name)
      = match resolveStartMonitor env selected with
        | none => []
        | some m0 =>
          if env.opens "avc1" then
            [(save_file, "avc1", fps, (grab m0).width, (grab m0).height)]
          else
            [(save_file, "avc1", fps, (grab m0).width, (grab m0).height),
             (save_file, "mp4v", fps, (grab m0).width, (grab m0).height)]
      := by
  cases hres : resolveStartMonitor env selected with
  | none => simp [record, hres, openAttempts]
  | some m0 =>
    simp only [record, hres]
    rw [openAttempts_append]
    have hloop : openAttempts
        (Event.showInfo ("Recording Started " ++ window_name) ::
          record_loop env selected interval (grab m0).width (grab m0).height
            env.fuel 0 m0) = [] := by
      simp only [openAttempts, List.filterMap_cons]
      simpa only [openAttempts] using
        openAttempts_record_loop env selected interval (grab m0).width
          (grab m0).height env.fuel 0 m0
    rw [hloop, List.append_nil]
    by_cases hop : env.opens "avc1" = true
    · rw [if_pos (show (mkVideoWriter env.opens save_file "avc1" fps
          (grab m0).width (grab m0).height).opened = true from hop),
        if_pos hop]
      simp [openAttempts]
    · simp only [Bool.not_eq_true] at hop
      rw [if_neg (by simp [mkVideoWriter, hop]), if_neg (by simp [hop])]
      simp [openAttempts]

theorem writtenFrames_record (env : Env) (selected : Option Nat)
    (fps interval : ℚ) (save_file window_name : String) :
    writtenFrames (record env selected fps interval save_file window_name)
      = match resolveStartMonitor env selected with
        | none => []
        | some m0 =>
          writtenFrames (record_loop env selected interval
            (grab m0).width (grab m0).height env.fuel 0 m0)
      := by
  cases hres : resolveStartMonitor env selected with
  | none => simp [record, hres, writtenFrames]
  | some m0 =>
    simp only [record, hres]
    rw [writtenFrames_append]
    have hcons : writtenFrames
        (Event.showInfo ("Recording Started " ++ window_name) ::
          record_loop env selected interval (grab m0).width (grab m0).height
            env.fuel 0 m0)
        = writtenFrames (record_loop env selected interval (grab m0).width
            (grab m0).height env.fuel 0 m0) := by
      simp only [writtenFrames, List.filterMap_cons]
    rw [hcons]
    by_cases hop : env.opens "avc1" = true
    · rw [if_pos (show (mkVideoWriter env.opens save_file "avc1" fps
          (grab m0).width (grab m0).height).opened = true from hop)]
      simp [writtenFrames]
    · simp only [Bool.not_eq_true] at hop
      rw [if_neg (by simp [mkVideoWriter, hop])]
      simp [writtenFrames]

theorem showError_not_mem_record_ok (env : Env) (selected : Option Nat)
    (fps interval : ℚ) (save_file window_name : String) (m0 : Rect)
    (hm : resolveStartMonitor env selected = some m0) (msg : String) :
    Event.showError msg ∉ record env selected fps interval save_file window_name := by
  simp only [record, hm]
  intro hmem
  by_cases hop : env.opens "avc1" = true
  · simp only [mkVideoWriter, hop] at hmem
    simp only [List.mem_append, List.mem_cons, List.mem_singleton] at hmem
    rcases hmem with h | h | h
    · simp at h
    · exact Event.noConfusion h
    · exact showError_not_mem_record_loop env selected interval _ _ env.fuel 0 m0 msg h
  · simp only [Bool.not_eq_true] at hop
    simp only [mkVideoWriter, hop] at hmem
    simp only [List.mem_append, List.mem_cons, List.mem_singleton] at hmem
    rcases hmem with h | h | h
    · simp at h
    · exact Event.noConfusion h
    · exact showError_not_mem_record_loop env selected interval _ _ env.fuel 0 m0 msg h

/-- C8: for every valid `Config c` whose path, window, fps and interval
values contain no `=` and no newline and survive whitespace stripping,
loading immediately after saving returns the identical path, fps, interval
and window values: `load_config` of `save_config c` is `c`.  `printF` is
Python `str` on floats and `parseF` is Python `float`, whose round trip
(`float(str(x)) == x`, a CPython guarantee) is the two `parseF`/`printF`
hypotheses. -/
theorem c8_config_save_load_roundtrip (printF : ℚ → List Char) (parseF : List Char → Option ℚ)
    (scriptDir : List Char) (c : Config)
    (hp1 : ('=' : Char) ∉ c.path) (hp2 : ('\n' : Char) ∉ c.path)
    (hp3 : pyStrip c.path = c.path)
    (hf1 : ('=' : Char) ∉ printF c.fps) (hf2 : ('\n' : Char) ∉ printF c.fps)
    (hf3 : pyStrip (printF c.fps) = printF c.fps)
    (hi1 : ('=' : Char) ∉ printF c.interval) (hi2 : ('\n' : Char) ∉ printF c.interval)
    (hi3 : pyStrip (printF c.interval) = printF c.interval)
    (hw1 : ('=' : Char) ∉ c.window) (hw2 : ('\n' : Char) ∉ c.window)
    (hw3 : pyStrip c.window = c.window)
    (hpf : parseF (printF c.fps) = some c.fps)
    (hpi : parseF (printF c.interval) = some c.interval) :
    load_config true (save_config printF c) parseF scriptDir = c := by
  have hpparts := pyStrip_eq_self_parts hp3
  have hfparts := pyStrip_eq_self_parts hf3
  have hiparts := pyStrip_eq_self_parts hi3
  have hwparts := pyStrip_eq_self_parts hw3
  -- the saved text
  set f := printF c.fps with hfdef
  set i := printF c.interval with hidef
  -- Step A: the full text survives stripping
  have hstrip : pyStrip (save_config printF c) = save_config printF c := by
    apply pyStrip_eq_self_of
    · show List.dropWhile Char.isWhitespace ("path=".toList ++ _) = _
      exact dropWhile_append_of_ne (by decide) (by decide)
    · by_cases hw0 : c.window = []
      · have htext : save_config printF c =
            ("path=".toList ++ c.path ++ '\n' ::
              ("fps=".toList ++ f ++ '\n' ::
                ("interval=".toList ++ i ++ ['\n']))) ++ "window=".toList := by
          simp [save_config, hw0, List.append_assoc]
        rw [htext]
        exact lastNonWs_append (by decide) (by decide)
      · have htext : save_config printF c =
            ("path=".toList ++ c.path ++ '\n' ::
              ("fps=".toList ++ f ++ '\n' ::
                ("interval=".toList ++ i ++ '\n' :: "window=".toList))) ++ c.window := by
          simp [save_config, List.append_assoc]
        rw [htext]
        exact lastNonWs_append hwparts.2 hw0
  -- Step B: splitting into the four lines
  have hsplit : pySplit '\n' (save_config printF c) =
      ["path=".toList ++ c.path, "fps=".toList ++ f,
       "interval=".toList ++ i, "window=".toList ++ c.window] := by
    have h1 : save_config printF c =
        ("path=".toList ++ c.path) ++ '\n' ::
          (("fps=".toList ++ f) ++ '\n' ::
            (("interval=".toList ++ i) ++ '\n' :: ("window=".toList ++ c.window))) := by
      simp [save_config, List.append_assoc]
    rw [h1]
    rw [pySplit_append (by simp [List.mem_append]; exact fun h => absurd h hp2)]
    rw [pySplit_append (by simp [List.mem_append]; exact fun h => absurd h hf2)]
    rw [pySplit_append (by simp [List.mem_append]; exact fun h => absurd h hi2)]
    rw [pySplit_no_sep (by simp [List.mem_append]; exact fun h => absurd h hw2)]
  -- Step C/D: run the parse
  have hl1 : "path=".toList ++ c.path = "path".toList ++ '=' :: c.path := rfl
  have hl2 : "fps=".toList ++ f = "fps".toList ++ '=' :: f := rfl
  have hl3 : "interval=".toList ++ i = "interval".toList ++ '=' :: i := rfl
  have hl4 : "window=".toList ++ c.window = "window".toList ++ '=' :: c.window := rfl
  simp only [load_config, if_pos rfl, hstrip, hsplit]
  simp only [hl1, hl2, hl3, hl4]
  simp only [List.filterMap_cons, List.filterMap_nil]
  rw [if_pos (by simp), if_pos (by simp), if_pos (by simp), if_pos (by simp)]
  rw [pySplitOnce_of_key (by decide), pySplitOnce_of_key (by decide),
      pySplitOnce_of_key (by decide), pySplitOnce_of_key (by decide)]
  simp only [hp3, hf3, hi3, hw3]
  rw [show pyStrip "path".toList = "path".toList from by decide]
  rw [show pyStrip "fps".toList = "fps".toList from by decide]
  rw [show pyStrip "interval".toList = "interval".toList from by decide]
  rw [show pyStrip "window".toList = "window".toList from by decide]
  rw [if_pos (show ('=' : Char) ∈ "window".toList ++ '=' :: c.window by simp)]
  have hd_fps : pyDictGet (("path".toList, c.path) :: ("fps".toList, f) ::
      ("interval".toList, i) :: [("window".toList, c.window)]) "fps".toList = some f := rfl
  have hd_int : pyDictGet (("path".toList, c.path) :: ("fps".toList, f) ::
      ("interval".toList, i) :: [("window".toList, c.window)]) "interval".toList = some i := rfl
  have hd_path : pyDictGet (("path".toList, c.path) :: ("fps".toList, f) ::
      ("interval".toList, i) :: [("window".toList, c.window)]) "path".toList = some c.path := rfl
  have hd_win : pyDictGet (("path".toList, c.path) :: ("fps".toList, f) ::
      ("interval".toList, i) :: [("window".toList, c.window)]) "window".toList = some c.window := rfl
  rw [hd_fps, hd_int, hd_path, hd_win]
  simp only [show (match some f with | some v => parseF v | none => some (30 : ℚ)) = parseF f from rfl,
    show (match some i with | some v => parseF v | none => some (1 : ℚ)) = parseF i from rfl]
  rw [hpf, hpi]
  rfl

/-! ### Concrete fixtures used by witnesses and counterexamples -/

/-- A 1920 by 1080 primary display, `sct.monitors[1]`. -/
def fullHD : Rect := { left := 0, top := 0, width := 1920, height := 1080 }

/-- A concrete `float()` oracle for the entry strings the fixtures use. -/
def parseFloatFix : String → Option ℚ := fun s =>
  if s == "30" then some 30
  else if s == "1" then some 1
  else if s == "0" then some 0
  else none

/-- Healthy win32 environment: window 7 resolves to an 800 by 600 rectangle at
start, per-tick queries report a drifted 1024 by 768 rectangle, both codecs
open, and the flag reads true for the first two ticks. -/
def envOk : Env where
  platform := Platform.win32
  fullMonitor := fullHD
  osRect := fun _ => some (0, 0, 800, 600)
  tickRect := fun _ _ => some (0, 0, 1024, 768)
  opens := fun _ => true
  flag := fun i => i < 2
  fuel := 5
  osWindows := [("Notepad", 7)]
  parseFloat := parseFloatFix
  resolvePath := fun s => s
  defaultFilename := "timelapse_20261012_000000.mp4"

/-- Environment in which no codec can open the video sink. -/
def envNoCodec : Env where
  platform := Platform.win32
  fullMonitor := fullHD
  osRect := fun _ => some (0, 0, 800, 600)
  tickRect := fun _ _ => some (0, 0, 800, 600)
  opens := fun _ => false
  flag := fun i => i < 1
  fuel := 2
  osWindows := []
  parseFloat := parseFloatFix
  resolvePath := fun s => s
  defaultFilename := "timelapse_20261012_000000.mp4"

/-- win32 environment in which the selected window's rectangle cannot be
obtained at start. -/
def envRectFail : Env where
  platform := Platform.win32
  fullMonitor := fullHD
  osRect := fun _ => none
  tickRect := fun _ _ => none
  opens := fun _ => true
  flag := fun i => i < 1
  fuel := 2
  osWindows := [("Notepad", 7)]
  parseFloat := parseFloatFix
  resolvePath := fun s => s
  defaultFilename := "timelapse_20261012_000000.mp4"

/-- Non-win32 environment (no window enumeration or geometry support). -/
def envLinux : Env where
  platform := Platform.linuxOS
  fullMonitor := fullHD
  osRect := fun _ => none
  tickRect := fun _ _ => none
  opens := fun _ => true
  flag := fun i => i < 1
  fuel := 2
  osWindows := []
  parseFloat := parseFloatFix
  resolvePath := fun s => s
  defaultFilename := "timelapse_20261012_000000.mp4"

/-- win32 environment whose tracked window yields no rectangle at every tick
(the window is gone for good) while the flag stays true for three ticks. -/
def envGone : Env where
  platform := Platform.win32
  fullMonitor := fullHD
  osRect := fun _ => some (0, 0, 800, 600)
  tickRect := fun _ _ => none
  opens := fun _ => true
  flag := fun i => i < 3
  fuel := 5
  osWindows := [("Notepad", 7)]
  parseFloat := parseFloatFix
  resolvePath := fun s => s
  defaultFilename := "timelapse_20261012_000000.mp4"

/-- The idle UI state before a recording starts. -/
def idleState : GState where
  recording := false
  output_folder := "C:/v"
  selected_window := none
  savedConfig := none
  startState := "normal"
  stopState := "disabled"
  comboState := "normal"
  refreshState := "normal"

/-- A state in which a session is already running. -/
def busyState : GState :=
  { idleState with
      recording := true
      startState := "disabled"
      stopState := "normal" }

/-- Well-formed inputs selecting the whole screen. -/
def insOk : UIInputs where
  fps_entry := "30"
  interval_entry := "1"
  filename_entry := "t.mp4"
  path_entry := "C:/v"
  window_combo := "Entire Screen"

/-- Inputs selecting window "Notepad". -/
def insNotepad : UIInputs := { insOk with window_combo := "Notepad" }

/-- Inputs whose fps text does not parse as a float. -/
def insBadFps : UIInputs := { insOk with fps_entry := "abc" }

/-- Inputs with zero fps. -/
def insZeroFps : UIInputs := { insOk with fps_entry := "0" }

/-! ### The claims -/

/-- C1: the container frame rate is independent of the sampling interval.
Two sessions with identical parameters except `interval` make the same
writer-open attempts, every attempt carries the configured `fps` as the frame
rate, and an n-frame video at that rate plays for `n / fps` seconds,
whatever the interval or wall-clock recording time. -/
theorem c1_container_fps_independent_of_interval (env : Env)
    (selected : Option Nat) (fps interval1 interval2 : ℚ)
    (save_file window_name : String) :
    openAttempts (record env selected fps interval1 save_file window_name)
      = openAttempts (record env selected fps interval2 save_file window_name)
    ∧ ∀ a ∈ openAttempts (record env selected fps interval1 save_file window_name),
        a.2.2.1 = fps
        ∧ ∀ n : Nat, playbackDuration n a.2.2.1 = (n : ℚ) / fps := by
  refine ⟨by rw [openAttempts_record, openAttempts_record], ?_⟩
  intro a ha
  rw [openAttempts_record] at ha
  cases hres : resolveStartMonitor env selected with
  | none => rw [hres] at ha; simp at ha
  | some m0 =>
    rw [hres] at ha
    have ha' : a ∈
        (if env.opens "avc1" = true
         then [(save_file, "avc1", fps, (grab m0).width, (grab m0).height)]
         else [(save_file, "avc1", fps, (grab m0).width, (grab m0).height),
               (save_file, "mp4v", fps, (grab m0).width, (grab m0).height)]) := ha
    by_cases hop : env.opens "avc1" = true
    · rw [if_pos hop] at ha'
      simp only [List.mem_singleton] at ha'
      subst ha'
      exact ⟨rfl, fun n => rfl⟩
    · rw [if_neg hop] at ha'
      rcases List.mem_cons.mp ha' with h | h
      · subst h
        exact ⟨rfl, fun n => rfl⟩
      · simp only [List.mem_singleton] at h
        subst h
        exact ⟨rfl, fun n => rfl⟩

/-- Witness for C1 at a concrete environment: the open attempts of two
sessions differing only in the interval coincide, contain the avc1 attempt,
and that attempt's rate is the configured 30 fps. -/
theorem c1_witness :
    (openAttempts (record envOk none 30 5 "C:/v/t.mp4" "Entire Screen")
      = openAttempts (record envOk none 30 1 "C:/v/t.mp4" "Entire Screen"))
    ∧ ("C:/v/t.mp4", "avc1", (30 : ℚ), 1920, 1080)
        ∈ openAttempts (record envOk none 30 5 "C:/v/t.mp4" "Entire Screen")
    ∧ ("C:/v/t.mp4", "avc1", (30 : ℚ), 1920, 1080).2.2.1 = 30
    ∧ playbackDuration 90 ("C:/v/t.mp4", "avc1", (30 : ℚ), 1920, 1080).2.2.1
        = (90 : ℚ) / 30 := by
  have h := c1_container_fps_independent_of_interval envOk none 30 5 1
    "C:/v/t.mp4" "Entire Screen"
  have hmem : ("C:/v/t.mp4", "avc1", (30 : ℚ), 1920, 1080)
      ∈ openAttempts (record envOk none 30 5 "C:/v/t.mp4" "Entire Screen") := by
    decide
  exact ⟨h.1, hmem, (h.2 _ hmem).1, (h.2 _ hmem).2 90⟩

/-- C2, evaluated at the failing input (no codec can open the sink): `record`
does try the mp4v fallback with the identical `(path, fps, width, height)`,
but with both opens failed it still announces the recording, samples a frame,
writes it to the unopened writer, and finishes normally — no
`EncoderUnavailable`-style error is ever reported and sampling does occur,
contrary to the claim (the code never re-checks `isOpened` after the
fallback, source lines 205-208). -/
theorem c2_both_encoders_fail_eval :
    record envNoCodec none 30 1 "C:/v/t.mp4" "Entire Screen"
      = [Event.openWriterAttempt "C:/v/t.mp4" "avc1" 30 1920 1080,
         Event.openWriterAttempt "C:/v/t.mp4" "mp4v" 30 1920 1080,
         Event.showInfo "Recording Started Entire Screen",
         Event.writeFrame { width := 1920, height := 1080, channels := 3 },
         Event.sleepSec 1,
         Event.releaseWriter,
         Event.showInfo "Recording Finished",
         Event.widgetConfig "start_button" "normal",
         Event.widgetConfig "stop_button" "disabled",
         Event.widgetConfig "window_combo" "normal",
         Event.widgetConfig "refresh_button" "normal"]
    ∧ openAttempts (record envNoCodec none 30 1 "C:/v/t.mp4" "Entire Screen")
      = [("C:/v/t.mp4", "avc1", 30, 1920, 1080),
         ("C:/v/t.mp4", "mp4v", 30, 1920, 1080)]
    ∧ (writtenFrames (record envNoCodec none 30 1 "C:/v/t.mp4" "Entire Screen")).length
      = 1 := by
  exact ⟨by decide, by decide, by decide⟩

/-- C3: for every session whose region resolves at start, every frame
appended to the encoder has exactly the pixel dimensions of the first grabbed
frame (drifted grabs are resampled before writing), so the output frame size
is fixed for the whole session. -/
theorem c3_fixed_output_frame_size (env : Env) (selected : Option Nat)
    (fps interval : ℚ) (save_file window_name : String) (m0 : Rect)
    (hm : resolveStartMonitor env selected = some m0) :
    ∀ img ∈ writtenFrames (record env selected fps interval save_file window_name),
      img.width = (grab m0).width ∧ img.height = (grab m0).height := by
  intro img hmem
  rw [writtenFrames_record, hm] at hmem
  exact record_loop_frame_dims env selected interval _ _ env.fuel 0 m0 img hmem

/-- Witness for C3: window 7 starts at 800 by 600, every per-tick grab drifts
to 1024 by 768, and the written frames are nevertheless 800 by 600. -/
theorem c3_witness :
    resolveStartMonitor envOk (some 7)
      = some { left := 0, top := 0, width := 800, height := 600 }
    ∧ ({ width := 800, height := 600, channels := 3 } : Image)
        ∈ writtenFrames (record envOk (some 7) 30 1 "C:/v/t.mp4" "Notepad")
    ∧ ({ width := 800, height := 600, channels := 3 } : Image).width
        = (grab { left := 0, top := 0, width := 800, height := 600 }).width
    ∧ ({ width := 800, height := 600, channels := 3 } : Image).height
        = (grab { left := 0, top := 0, width := 800, height := 600 }).height := by
  have h := c3_fixed_output_frame_size envOk (some 7) 30 1 "C:/v/t.mp4" "Notepad"
    { left := 0, top := 0, width := 800, height := 600 } (by decide)
  have hmem : ({ width := 800, height := 600, channels := 3 } : Image)
      ∈ writtenFrames (record envOk (some 7) 30 1 "C:/v/t.mp4" "Notepad") := by
    decide
  exact ⟨by decide, hmem, (h _ hmem).1, (h _ hmem).2⟩

/-- C4: with the session idle, non-numeric or non-positive fps/interval is
rejected immediately: the state (recording flag, folder, selection, saved
config, widget states) is unchanged and the whole trace is a single error
dialog — no config write, no spawned task, no writer, no frame. -/
theorem c4_invalid_parameters_rejected (env : Env) (s : GState) (ins : UIInputs)
    (hrec : s.recording = false)
    (hbad : env.parseFloat ins.fps_entry = none
      ∨ env.parseFloat ins.interval_entry = none
      ∨ ∃ fps interval, env.parseFloat ins.fps_entry = some fps
          ∧ env.parseFloat ins.interval_entry = some interval
          ∧ (fps ≤ 0 ∨ interval ≤ 0)) :
    (start_recording env s ins).1 = s
    ∧ ∃ msg, (start_recording env s ins).2 = [Event.showError msg] := by
  unfold start_recording
  rw [if_neg (by simp [hrec])]
  rcases hbad with h | h | ⟨fps, interval, hf, hi, hle⟩
  · rw [h]
    exact ⟨rfl, "Invalid numeric input", rfl⟩
  · cases hx : env.parseFloat ins.fps_entry with
    | none =>
      exact ⟨rfl, "Invalid numeric input", rfl⟩
    | some fps =>
      rw [h]
      exact ⟨rfl, "Invalid numeric input", rfl⟩
  · rw [hf, hi]
    refine ⟨by simp only [if_pos hle], "FPS and Interval must be > 0",
      by simp only [if_pos hle]⟩

/-- Witness for C4: starting from idle with `fps = 0` leaves the state
untouched and produces exactly one error dialog. -/
theorem c4_witness :
    idleState.recording = false
    ∧ envOk.parseFloat insZeroFps.fps_entry = some 0
    ∧ envOk.parseFloat insZeroFps.interval_entry = some 1
    ∧ ((0 : ℚ) ≤ 0 ∨ (1 : ℚ) ≤ 0)
    ∧ (start_recording envOk idleState insZeroFps).1 = idleState
    ∧ ∃ msg, (start_recording envOk idleState insZeroFps).2
        = [Event.showError msg] := by
  have h := c4_invalid_parameters_rejected envOk idleState insZeroFps rfl
    (Or.inr (Or.inr ⟨0, 1, by decide, by decide, Or.inl (by decide)⟩))
  exact ⟨rfl, by decide, by decide, Or.inl (by decide), h.1, h.2⟩

/-- C5 (counterexample): with valid parameters and a selected window whose
rectangle cannot be obtained, `start_recording`'s trace saves the config,
sets the recording flag, disables the widgets and spawns the background task
(first seven events, the seventh being the spawn), and only afterwards — from
inside the task — reports the failure; the returned state has
`recording = true`.  So the start-time `RegionUnavailable` failure is NOT
reported synchronously before the task is spawned, and the session does
transiently start, contrary to the claim. -/
theorem c5_counterexample :
    (start_recording envRectFail idleState insNotepad).2
      = [Event.configSaved "C:/v" 30 1 "Notepad",
         Event.setRecording true,
         Event.widgetConfig "start_button" "disabled",
         Event.widgetConfig "stop_button" "normal",
         Event.widgetConfig "window_combo" "disabled",
         Event.widgetConfig "refresh_button" "disabled",
         Event.spawnThread,
         Event.showError "Could not get window dimensions",
         Event.setRecording false,
         Event.widgetConfig "start_button" "normal",
         Event.widgetConfig "stop_button" "disabled",
         Event.widgetConfig "window_combo" "normal",
         Event.widgetConfig "refresh_button" "normal"]
    ∧ ((start_recording envRectFail idleState insNotepad).2).take 7
      = [Event.configSaved "C:/v" 30 1 "Notepad",
         Event.setRecording true,
         Event.widgetConfig "start_button" "disabled",
         Event.widgetConfig "stop_button" "normal",
         Event.widgetConfig "window_combo" "disabled",
         Event.widgetConfig "refresh_button" "disabled",
         Event.spawnThread]
    ∧ ((start_recording envRectFail idleState insNotepad).2).drop 7
      = [Event.showError "Could not get window dimensions",
         Event.setRecording false,
         Event.widgetConfig "start_button" "normal",
         Event.widgetConfig "stop_button" "disabled",
         Event.widgetConfig "window_combo" "normal",
         Event.widgetConfig "refresh_button" "normal"]
    ∧ (start_recording envRectFail idleState insNotepad).1.recording = true := by
  exact ⟨by decide, by decide, by decide, by decide⟩

/-- C5 (amended): when the selected window cannot be resolved, the config is
saved, the flag set, the widgets disabled and the background task spawned
first; the `RegionUnavailable` failure is detected inside the task and
reported asynchronously after the spawn, whereupon the task clears the flag,
re-enables the widgets and exits before opening an encoder or writing any
frame. -/
theorem c5_region_failure_reported_inside_task (env : Env) (s : GState)
    (ins : UIInputs) (fps interval : ℚ) (hwnd : Nat)
    (hrec : s.recording = false)
    (hf : env.parseFloat ins.fps_entry = some fps)
    (hi : env.parseFloat ins.interval_entry = some interval)
    (hpos : ¬(fps ≤ 0 ∨ interval ≤ 0))
    (hsel : lookupWindow (get_window_list env.platform env.osWindows)
        ins.window_combo = some hwnd)
    (hplat : env.platform = Platform.win32)
    (hrect : get_window_rect env.platform env.osRect hwnd = none) :
    (start_recording env s ins).2
      = [Event.configSaved (env.resolvePath ins.path_entry) fps interval
           ins.window_combo,
         Event.setRecording true,
         Event.widgetConfig "start_button" "disabled",
         Event.widgetConfig "stop_button" "normal",
         Event.widgetConfig "window_combo" "disabled",
         Event.widgetConfig "refresh_button" "disabled",
         Event.spawnThread,
         Event.showError "Could not get window dimensions",
         Event.setRecording false,
         Event.widgetConfig "start_button" "normal",
         Event.widgetConfig "stop_button" "disabled",
         Event.widgetConfig "window_combo" "normal",
         Event.widgetConfig "refresh_button" "normal"] := by
  unfold start_recording
  rw [if_neg (by simp [hrec]), hf, hi]
  simp only [if_neg hpos, hsel]
  have hrect' : get_window_rect Platform.win32 env.osRect hwnd = none := by
    rw [← hplat]
    exact hrect
  simp only [record, resolveStartMonitor, hplat, eq_self_iff_true, if_true,
    hrect']

/-- Witness for the amended C5 at the concrete failing environment. -/
theorem c5_witness :
    envRectFail.parseFloat insNotepad.fps_entry = some 30
    ∧ envRectFail.platform = Platform.win32
    ∧ get_window_rect envRectFail.platform envRectFail.osRect 7 = none
    ∧ (start_recording envRectFail idleState insNotepad).2
      = [Event.configSaved "C:/v" 30 1 "Notepad",
         Event.setRecording true,
         Event.widgetConfig "start_button" "disabled",
         Event.widgetConfig "stop_button" "normal",
         Event.widgetConfig "window_combo" "disabled",
         Event.widgetConfig "refresh_button" "disabled",
         Event.spawnThread,
         Event.showError "Could not get window dimensions",
         Event.setRecording false,
         Event.widgetConfig "start_button" "normal",
         Event.widgetConfig "stop_button" "disabled",
         Event.widgetConfig "window_combo" "normal",
         Event.widgetConfig "refresh_button" "normal"] := by
  refine ⟨by decide, by decide, by decide, ?_⟩
  exact c5_region_failure_reported_inside_task envRectFail idleState insNotepad
    30 1 7 rfl (by decide) (by decide) (by decide) (by decide) rfl (by decide)

/-- C6 (counterexample): on a platform without window support
(`envLinux.platform ≠ win32`), running the capture task with a selected
window (`some 5`) raises no error at all: the region silently resolves to the
full display, the encoder is opened at the display's 1920 by 1080, and the
written frame is a full-display grab — the exact silent substitution the
claim rules out. -/
theorem c6_counterexample :
    envLinux.platform ≠ Platform.win32
    ∧ resolveStartMonitor envLinux (some 5) = some envLinux.fullMonitor
    ∧ record envLinux (some 5) 30 1 "C:/v/t.mp4" "Foo"
      = [Event.openWriterAttempt "C:/v/t.mp4" "avc1" 30 1920 1080,
         Event.showInfo "Recording Started Foo",
         Event.writeFrame { width := 1920, height := 1080, channels := 3 },
         Event.sleepSec 1,
         Event.releaseWriter,
         Event.showInfo "Recording Finished",
         Event.widgetConfig "start_button" "normal",
         Event.widgetConfig "stop_button" "disabled",
         Event.widgetConfig "window_combo" "normal",
         Event.widgetConfig "refresh_button" "normal"]
    ∧ writtenFrames (record envLinux (some 5) 30 1 "C:/v/t.mp4" "Foo")
      = [{ width := 1920, height := 1080, channels := 3 }] := by
  exact ⟨by decide, by decide, by decide, by decide⟩

/-- C6 (amended): on a platform without window enumeration, `get_window_list`
offers only the Entire Screen entry, so `start_recording` resolves every
window-combo choice to `none` and window capture cannot be attempted through
the UI; however, the `record` task itself, handed a window selection on such
a platform, silently substitutes the full display (the else branch at source
line 195) and reports no error, rather than failing clearly. -/
theorem c6_window_capture_unoffered_but_substituted (env : Env)
    (hplat : env.platform ≠ Platform.win32) :
    (∀ name, lookupWindow (get_window_list env.platform env.osWindows) name
      = none)
    ∧ (∀ hwnd, resolveStartMonitor env (some hwnd) = some env.fullMonitor)
    ∧ (∀ (hwnd : Nat) (fps interval : ℚ) (save_file window_name msg : String),
        Event.showError msg ∉ record env (some hwnd) fps interval save_file
          window_name) := by
  refine ⟨?_, ?_, ?_⟩
  · intro name
    simp only [get_window_list, if_neg hplat, lookupWindow, List.find?]
    cases hb : (("Entire Screen", (none : Option Nat)).1 == name) <;> simp [hb]
  · intro hwnd
    simp [resolveStartMonitor, hplat]
  · intro hwnd fps interval save_file window_name msg
    exact showError_not_mem_record_ok env (some hwnd) fps interval save_file
      window_name env.fullMonitor (by simp [resolveStartMonitor, hplat]) msg

/-- Witness for the amended C6 at the concrete non-win32 environment. -/
theorem c6_witness :
    envLinux.platform ≠ Platform.win32
    ∧ lookupWindow (get_window_list envLinux.platform envLinux.osWindows)
        "Notepad" = none
    ∧ resolveStartMonitor envLinux (some 5) = some envLinux.fullMonitor
    ∧ Event.showError "Could not get window dimensions"
        ∉ record envLinux (some 5) 30 1 "C:/v/t.mp4" "Foo" := by
  have h := c6_window_capture_unoffered_but_substituted envLinux (by decide)
  exact ⟨by decide, h.1 "Notepad", h.2.1 5,
    h.2.2 5 30 1 "C:/v/t.mp4" "Foo" "Could not get window dimensions"⟩

/-- C7 (counterexample): with the tracked window gone for good (the geometry
query yields nothing at every tick), the loop does not stop sampling and
reports no `RegionLost`: it writes three more frames from the stale
last-known-good rectangle, and terminates only because the flag is cleared,
with the ordinary finished message. -/
theorem c7_counterexample :
    envGone.tickRect 0 3 = none
    ∧ envGone.tickRect 1 3 = none
    ∧ envGone.tickRect 2 3 = none
    ∧ record_loop envGone (some 3) 1 800 600 5 0
        { left := 0, top := 0, width := 800, height := 600 }
      = [Event.writeFrame { width := 800, height := 600, channels := 3 },
         Event.sleepSec 1,
         Event.writeFrame { width := 800, height := 600, channels := 3 },
         Event.sleepSec 1,
         Event.writeFrame { width := 800, height := 600, channels := 3 },
         Event.sleepSec 1,
         Event.releaseWriter,
         Event.showInfo "Recording Finished",
         Event.widgetConfig "start_button" "normal",
         Event.widgetConfig "stop_button" "disabled",
         Event.widgetConfig "window_combo" "normal",
         Event.widgetConfig "refresh_button" "normal"]
    ∧ (writtenFrames (record_loop envGone (some 3) 1 800 600 5 0
        { left := 0, top := 0, width := 800, height := 600 })).length = 3 := by
  exact ⟨by decide, by decide, by decide, by decide, by decide⟩

/-- C7 (amended): when the per-tick geometry query yields no rectangle the
loop continues with the last-known-good rectangle — but indefinitely: the
code has no notion of the window being confirmed gone and never reports
`RegionLost`; no error is ever emitted from the loop, and the loop stops,
releasing the encoder (keeping the partial video), only when the running
flag is cleared. -/
theorem c7_transient_continue_no_region_lost (env : Env)
    (selected : Option Nat) (interval : ℚ) (width height : Nat) (hwnd : Nat)
    (hsel : selected = some hwnd)
    (hplat : env.platform = Platform.win32) :
    (∀ fuel i monitor, env.flag i = true → env.tickRect i hwnd = none →
        record_loop env selected interval width height (fuel + 1) i monitor
          = Event.writeFrame (normalizeFrame monitor width height) ::
            Event.sleepSec interval ::
            record_loop env selected interval width height fuel (i + 1) monitor)
    ∧ (∀ fuel i monitor msg,
        Event.showError msg
          ∉ record_loop env selected interval width height fuel i monitor)
    ∧ (∀ fuel i monitor, env.flag i = false →
        record_loop env selected interval width height (fuel + 1) i monitor
          = [Event.releaseWriter,
             Event.showInfo "Recording Finished",
             Event.widgetConfig "start_button" "normal",
             Event.widgetConfig "stop_button" "disabled",
             Event.widgetConfig "window_combo" "normal",
             Event.widgetConfig "refresh_button" "normal"]) := by
  refine ⟨?_, ?_, ?_⟩
  · intro fuel i monitor hfl hr
    have ht : tickMonitor env selected i monitor = monitor := by
      simp [tickMonitor, hsel, hplat, get_window_rect, hr]
    simp only [record_loop, hfl, if_true, ht]
  · intro fuel i monitor msg
    exact showError_not_mem_record_loop env selected interval width height
      fuel i monitor msg
  · intro fuel i monitor hfl
    simp [record_loop, hfl]

/-- Witness for the amended C7 at the concrete gone-window environment. -/
theorem c7_witness :
    envGone.flag 0 = true
    ∧ envGone.tickRect 0 3 = none
    ∧ record_loop envGone (some 3) 1 800 600 5 0
        { left := 0, top := 0, width := 800, height := 600 }
      = Event.writeFrame (normalizeFrame
            { left := 0, top := 0, width := 800, height := 600 } 800 600) ::
          Event.sleepSec 1 ::
          record_loop envGone (some 3) 1 800 600 4 1
            { left := 0, top := 0, width := 800, height := 600 }
    ∧ Event.showError "RegionLost"
        ∉ record_loop envGone (some 3) 1 800 600 5 0
            { left := 0, top := 0, width := 800, height := 600 }
    ∧ envGone.flag 3 = false
    ∧ record_loop envGone (some 3) 1 800 600 2 3
        { left := 0, top := 0, width := 800, height := 600 }
      = [Event.releaseWriter,
         Event.showInfo "Recording Finished",
         Event.widgetConfig "start_button" "normal",
         Event.widgetConfig "stop_button" "disabled",
         Event.widgetConfig "window_combo" "normal",
         Event.widgetConfig "refresh_button" "normal"] := by
  have h := c7_transient_continue_no_region_lost envGone (some 3) 1 800 600 3
    rfl rfl
  exact ⟨rfl, rfl,
    h.1 4 0 { left := 0, top := 0, width := 800, height := 600 } rfl rfl,
    h.2.1 5 0 { left := 0, top := 0, width := 800, height := 600 } "RegionLost",
    by decide,
    h.2.2 1 3 { left := 0, top := 0, width := 800, height := 600 } (by decide)⟩

/-- C9: `stop_recording` clears the shared flag, and once every flag read
after tick `j` observes false (the clear happened during iteration `j` at the
latest), the loop writes at most `j + 1` frames in total — i.e. at most the
one in-flight frame after the clear — and, given fuel for `j + 2` iterations,
its trace is already final (more fuel changes nothing: the loop has
terminated) and contains the encoder release.  The flag is only consulted at
the top of each iteration, so the worst-case stop latency is the one
in-flight grab-encode step plus its sleep. -/
theorem c9_cooperative_stop_latency (env : Env) (selected : Option Nat)
    (interval : ℚ) (width height : Nat) (monitor : Rect) (j : Nat)
    (hstop : ∀ k, j < k → env.flag k = false) :
    (∀ s, (stop_recording s).recording = false)
    ∧ ∀ fuel, j + 2 ≤ fuel →
        record_loop env selected interval width height fuel 0 monitor
          = record_loop env selected interval width height (j + 2) 0 monitor
        ∧ (writtenFrames (record_loop env selected interval width height
            fuel 0 monitor)).length ≤ j + 1
        ∧ Event.releaseWriter
            ∈ record_loop env selected interval width height fuel 0 monitor := by
  refine ⟨fun s => rfl, fun fuel hfuel => ⟨?_, ?_, ?_⟩⟩
  · exact record_loop_fuel_congr env selected interval width height j hstop
      fuel (j + 2) 0 monitor (by omega) (by omega) (by omega)
  · have h := writtenFrames_record_loop_bound env selected interval width
      height j hstop fuel 0 monitor
    simpa using h
  · exact record_loop_release_mem env selected interval width height j hstop
      fuel 0 monitor (by omega) (by omega)

/-- Witness for C9: in `envOk` the flag is cleared so that every read after
tick 1 observes false; with any fuel of at least 3 the loop's trace is final,
has at most 2 written frames, and releases the encoder. -/
theorem c9_witness :
    (stop_recording busyState).recording = false
    ∧ record_loop envOk none 1 800 600 9 0 fullHD
      = record_loop envOk none 1 800 600 3 0 fullHD
    ∧ (writtenFrames (record_loop envOk none 1 800 600 9 0 fullHD)).length ≤ 2
    ∧ Event.releaseWriter ∈ record_loop envOk none 1 800 600 9 0 fullHD := by
  have h := c9_cooperative_stop_latency envOk none 1 800 600 fullHD 1
    (fun k hk => by simp [envOk]; omega)
  have h9 := h.2 9 (by omega)
  exact ⟨h.1 busyState, h9.1, h9.2.1, h9.2.2⟩

/-- A concrete Python `str`-of-float oracle for the C8 witness. -/
def printFloatFix : ℚ → List Char := fun q =>
  if q = 30 then "30.0".toList
  else if q = 1 then "1.0".toList
  else []

/-- A concrete Python `float()` oracle matching `printFloatFix`. -/
def parseFloatListFix : List Char → Option ℚ := fun l =>
  if l = "30.0".toList then some 30
  else if l = "1.0".toList then some 1
  else none

/-- The concrete configuration for the C8 witness. -/
def cfgFix : Config :=
  { path := "C:/out".toList, fps := 30, interval := 1,
    window := "Entire Screen".toList }

/-- Witness for C8: saving and immediately loading the concrete configuration
returns it unchanged. -/
theorem c8_witness :
    parseFloatListFix (printFloatFix cfgFix.fps) = some cfgFix.fps
    ∧ parseFloatListFix (printFloatFix cfgFix.interval) = some cfgFix.interval
    ∧ pyStrip cfgFix.path = cfgFix.path
    ∧ pyStrip cfgFix.window = cfgFix.window
    ∧ load_config true (save_config printFloatFix cfgFix) parseFloatListFix
        "D:/app".toList = cfgFix := by
  refine ⟨by decide, by decide, by decide, by decide, ?_⟩
  exact c8_config_save_load_roundtrip printFloatFix parseFloatListFix
    "D:/app".toList cfgFix (by decide) (by decide) (by decide) (by decide)
    (by decide) (by decide) (by decide) (by decide) (by decide) (by decide)
    (by decide) (by decide) (by decide) (by decide)

/-- C10: calling start while a session is already running is a complete
no-op: `start_recording` returns at once with the state unchanged and an
empty trace — no validation error, no config save, no writer, no spawned
task, no widget change. -/
theorem c10_start_noop_while_recording (env : Env) (s : GState)
    (ins : UIInputs) (h : s.recording = true) :
    start_recording env s ins = (s, []) := by
  unfold start_recording
  rw [if_pos (by simp [h])]

/-- Witness for C10: starting again in the busy state changes nothing and
emits nothing, even with invalid entries. -/
theorem c10_witness :
    busyState.recording = true
    ∧ start_recording envOk busyState insBadFps = (busyState, []) := by
  exact ⟨rfl, c10_start_noop_while_recording envOk busyState insBadFps rfl⟩

end Timelapse
